import Mathlib

/-!
Verification development for the `nexsys2` equation-solver engine.

The engine is a Python package: `engine/nexsys2lib.py` (solver pipeline and
preprocessor scheduling), `engine/nexsys2preproc.py` (text preprocessors),
`engine/geqslib.py` (Python wrapper over a native constraint/Newton library),
`engine/gmatlib.py` (Python wrapper over a native matrix library), plus the
module-level schedule in `preprocessors.py`.

This file shallowly embeds the Python code.  Pure string rewriting is embedded
directly (including a small backtracking regex matcher mirroring the semantics
of `re.findall` with the `IGNORECASE` flag, which is how the source matches
variables, numbers and directives).  Python exceptions are modelled with
`Except`.  The native (Rust) halves of `geqslib`/`gmatlib` are not part of the
Python sources; where a claim depends on them they are modelled from the
specification and marked `Modelled from the spec:` in their doc comments.
-/

/-- The Python exceptions that the embedded code can raise.  `typeError` is
Python's built-in `TypeError` (wrong number of call arguments, non-callable
object), `valueError` is `ValueError` (failed tuple unpacking), `keyError` is a
failed `dict` lookup, `matrixIndexOutOfBounds` is `gmatlib.MatrixIndexOutOfBoundsError`,
and `genericException` is a bare `raise Exception` carrying no payload. -/
inductive PyErr where
  | typeError
  | valueError
  | keyError
  | matrixIndexOutOfBounds
  | genericException
  deriving DecidableEq, Repr

/-- Abstract syntax of the regular expressions used by the engine's
preprocessors: literals, character classes, `.`, concatenation, `?`, greedy
`*`, lazy `*?`, and a capturing group.  `+` and `+?` are expressed as
`seq a (star a)` and `seq a (lazyStar a)`, and `a{1,2}` as `seq a (opt a)`. -/
inductive Rx where
  | lit (c : Char)
  | cls (cs : List Char)
  | dot
  | seq (a b : Rx)
  | opt (a : Rx)
  | star (a : Rx)
  | lazyStar (a : Rx)
  | group (a : Rx)
  deriving Repr

/-- Case-insensitive character comparison: `nexsys_findall` always compiles its
pattern with `re.IGNORECASE`. -/
def ceq (a b : Char) : Bool := a.toLower == b.toLower

/-- Case-insensitive membership in a character class. -/
def clsMem (cs : List Char) (c : Char) : Bool := cs.any (fun d => ceq d c)

/-- Node count of a pattern, used to budget the matcher's fuel. -/
def Rx.size : Rx → Nat
  | .lit _ => 1
  | .cls _ => 1
  | .dot => 1
  | .seq a b => a.size + b.size + 1
  | .opt a => a.size + 1
  | .star a => a.size + 1
  | .lazyStar a => a.size + 1
  | .group a => a.size + 1

/-- Backtracking matcher in continuation-passing style, mirroring how Python's
`re` engine explores alternatives: `opt`/`star` try the longer match first,
`lazyStar` tries the empty match first.  `caps` accumulates the text captured
by each completed group in the order the groups complete (for the patterns in
this development groups are not nested, so this is their textual order).
The recursion is structural on `fuel`, decremented once per pattern node
entered; a star iteration must consume input to continue.  Fuel at least
`(pattern size + 2) * (input length + 2)` therefore never cuts a search
short, and `rxMatchAt` supplies exactly that. -/
def rxMat : Nat → Rx → List Char → List String →
    (List Char → List String → Option (List Char × List String)) →
    Option (List Char × List String)
  | 0, _, _, _, _ => none
  | fuel + 1, r, s, caps, k =>
    match r with
    | .lit c =>
      match s with
      | [] => none
      | c' :: s' => if ceq c c' then k s' caps else none
    | .cls cs =>
      match s with
      | [] => none
      | c' :: s' => if clsMem cs c' then k s' caps else none
    | .dot =>
      match s with
      | [] => none
      | c' :: s' => if c' = '\n' then none else k s' caps
    | .seq a b => rxMat fuel a s caps (fun s' caps' => rxMat fuel b s' caps' k)
    | .opt a => (rxMat fuel a s caps k).orElse (fun _ => k s caps)
    | .star a =>
      (rxMat fuel a s caps (fun s' caps' =>
        if s'.length < s.length then rxMat fuel (.star a) s' caps' k
        else none)).orElse
        (fun _ => k s caps)
    | .lazyStar a =>
      (k s caps).orElse (fun _ =>
        rxMat fuel a s caps (fun s' caps' =>
          if s'.length < s.length then rxMat fuel (.lazyStar a) s' caps' k
          else none))
    | .group a =>
      rxMat fuel a s caps (fun s' caps' =>
        k s' (caps' ++ [String.mk (s.take (s.length - s'.length))]))

/-- Attempt a match anchored at the start of `s`; on success return the number
of characters consumed and the group captures, in backtracking priority order
(i.e. the match Python's engine reports). -/
def rxMatchAt (r : Rx) (s : List Char) : Option (Nat × List String) :=
  match rxMat ((r.size + 2) * (s.length + 2)) r s []
      (fun s' caps => some (s', caps)) with
  | some (s', caps) => some (s.length - s'.length, caps)
  | none => none

/-- `re.findall` scanning: try a match at each position from left to right; on
a match, emit `(whole match, captures)` and resume after it (after one more
character if the match was empty, as Python does). -/
def rxFindallAux (fuel : Nat) (r : Rx) (s : List Char) :
    List (String × List String) :=
  match fuel with
  | 0 => []
  | fuel' + 1 =>
    match rxMatchAt r s with
    | some (len, caps) =>
      (String.mk (s.take len), caps) ::
        (if 0 < len then rxFindallAux fuel' r (s.drop len)
         else
           match s with
           | [] => []
           | _ :: rest => rxFindallAux fuel' r rest)
    | none =>
      match s with
      | [] => []
      | _ :: rest => rxFindallAux fuel' r rest

/-- All matches of `r` in `s`, each with its group captures. -/
def rxFindall (r : Rx) (s : String) : List (String × List String) :=
  rxFindallAux (s.toList.length + 1) r s.toList

/-- Number of capturing groups in a pattern. -/
def Rx.ngroups : Rx → Nat
  | .lit _ => 0
  | .cls _ => 0
  | .dot => 0
  | .seq a b => a.ngroups + b.ngroups
  | .opt a => a.ngroups
  | .star a => a.ngroups
  | .lazyStar a => a.ngroups
  | .group a => a.ngroups + 1

/-- An element of the list `re.findall` returns: a plain string when the
pattern has no group (the whole match) or exactly one group (that group's
text), and a tuple of the group texts when it has two or more groups. -/
inductive PyMatch where
  | str (s : String)
  | tup (ss : List String)
  deriving DecidableEq, Repr

/-- `re.findall`'s result shape, depending on the pattern's group count. -/
def pyFindall (r : Rx) (s : String) : List PyMatch :=
  let raw := rxFindall r s
  if r.ngroups = 0 then raw.map (fun m => .str m.1)
  else if r.ngroups = 1 then raw.map (fun m => .str (m.2.headD ""))
  else raw.map (fun m => .tup m.2)

/-- Chain a list of patterns left to right (concatenation of a pattern text). -/
def rxSeqs (rs : List Rx) : Rx :=
  match rs with
  | [] => .dot
  | [r] => r
  | r :: rest => .seq r (rxSeqs rest)

/-- A sequence of literal characters (a literal substring of a pattern). -/
def rxLits (s : String) : Rx := rxSeqs (s.toList.map Rx.lit)

/-- The class `[0-9]`. -/
def digitChars : List Char :=
  ['0', '1', '2', '3', '4', '5', '6', '7', '8', '9']

/-- The class `[a-z]` (matched case-insensitively). -/
def lowerChars : List Char :=
  ['a', 'b', 'c', 'd', 'e', 'f', 'g', 'h', 'i', 'j', 'k', 'l', 'm',
   'n', 'o', 'p', 'q', 'r', 's', 't', 'u', 'v', 'w', 'x', 'y', 'z']

/-- The class `[a-z0-9_]` (matched case-insensitively). -/
def varBodyChars : List Char := lowerChars ++ digitChars ++ ['_']

/-- `LEGAL_VAR_PATTERN` (nexsys2lib.py line 11): the pattern text
`[a-z][a-z0-9_]*`, substituted for `@V` by `nexsys_findall` and compiled with
`IGNORECASE`. -/
def legalVarRx : Rx := .seq (.cls lowerChars) (.star (.cls varBodyChars))

/-- `LEGAL_NUM_PATTERN` (nexsys2lib.py line 17): the pattern text
`-? ?[0-9]+\.?[0-9]+?` — optional minus, optional space, one-or-more digits
(greedy), optional dot, one-or-more digits (lazy).  The trailing `[0-9]+?`
still requires at least one digit.  (The `TODO` comment above it in the source
says the decimal point and fractional digits were meant to be optional as a
group.) -/
def legalNumRx : Rx :=
  rxSeqs [.opt (.lit '-'), .opt (.lit ' '),
    .seq (.cls digitChars) (.star (.cls digitChars)),
    .opt (.lit '.'),
    .seq (.cls digitChars) (.lazyStar (.cls digitChars))]

/-- `nexsys_findall "@V" eqn` (nexsys2lib.py lines 111-121 as used at line
131): every match of the variable pattern in the text, in order, duplicates
included. -/
def findVarsL (s : String) : List String :=
  (rxFindall legalVarRx s).map (fun m => m.1)

/-- The pattern ` +` (one or more spaces — literal spaces, not `\s`). -/
def rxSpacePlus : Rx := .seq (.lit ' ') (.star (.lit ' '))

/-- The `guess_values` pattern (nexsys2preproc.py line 126):
`guess +(@N) +for +(@V)` after `nexsys_findall` substitutes `@N` and `@V`.
It has exactly two capturing groups. -/
def guessRx : Rx :=
  rxSeqs [rxLits "guess", rxSpacePlus, .group legalNumRx, rxSpacePlus,
    rxLits "for", rxSpacePlus, .group legalVarRx]

/-- The `conditionals` pattern (nexsys2preproc.py line 49):
`if ?\[ ?.* ?([<>=]{1,2}) ?.* ?\] ?.* ?else ?.*`.  `.` is compiled without
`DOTALL` (only `IGNORECASE` is set), so it matches any character except a
newline; `[<>=]{1,2}` is the single capturing group. -/
def condRx : Rx :=
  rxSeqs [rxLits "if", .opt (.lit ' '), .lit '[', .opt (.lit ' '),
    .star .dot, .opt (.lit ' '),
    .group (.seq (.cls ['<', '>', '=']) (.opt (.cls ['<', '>', '=']))),
    .opt (.lit ' '), .star .dot, .opt (.lit ' '), .lit ']', .opt (.lit ' '),
    .star .dot, .opt (.lit ' '), rxLits "else", .opt (.lit ' '), .star .dot]

/-- Split a character list at newlines (Python `str.split("\n")`). -/
def splitLinesAux (cur : List Char) (acc : List (List Char)) :
    List Char → List (List Char)
  | [] => (acc ++ [cur.reverse])
  | c :: rest =>
    if c = '\n' then splitLinesAux [] (acc ++ [cur.reverse]) rest
    else splitLinesAux (c :: cur) acc rest

/-- Python `text.split("\n")`. -/
def splitLines (s : String) : List String :=
  (splitLinesAux [] [] s.toList).map String.mk

/-- Does `pat` occur at the head of `s` (case-sensitively, as Python
`str.replace` is)? -/
def isPrefixOfL (pat s : List Char) : Bool :=
  match pat, s with
  | [], _ => true
  | _ :: _, [] => false
  | p :: ps, c :: cs => p = c && isPrefixOfL ps cs

/-- Python `s.replace(pat, sub)`: replace every non-overlapping occurrence of
`pat` in `s` by `sub`, scanning left to right.  (For `pat = ""` Python
interleaves `sub` everywhere; the engine never calls it that way, and this
model leaves `s` unchanged in that case.) -/
def replaceAllAux (fuel : Nat) (pat sub s : List Char) : List Char :=
  match fuel with
  | 0 => s
  | fuel' + 1 =>
    match s with
    | [] => []
    | c :: rest =>
      if pat ≠ [] && isPrefixOfL pat s then
        sub ++ replaceAllAux fuel' pat sub (s.drop pat.length)
      else
        c :: replaceAllAux fuel' pat sub rest

/-- Python `s.replace(pat, sub)`. -/
def pyReplace (s pat sub : String) : String :=
  String.mk (replaceAllAux s.toList.length pat.toList sub.toList s.toList)

/-- Parse the digits of a numeral. -/
def digitsToNat : List Char → Option Nat
  | [] => none
  | cs =>
    cs.foldl (fun acc c =>
      match acc with
      | none => none
      | some n => if c.isDigit then some (n * 10 + (c.toNat - 48)) else none)
      (some 0)

/-- Model of Python `float(s)` on the literal shapes the engine's number
pattern can produce, idealised over the rationals: optional sign, integer
digits, optional `.` and fraction digits.  A literal containing a space (the
pattern's `-? ?` can capture `"- 5"`) is rejected, as `float` rejects it. -/
def pyFloat (s : String) : Option ℚ :=
  let neg := s.toList.headD ' ' = '-'
  let body := if neg then s.toList.drop 1 else s.toList
  let parts := body.splitOn '.'
  let toQ : Option ℚ :=
    match parts with
    | [intPart] =>
      (digitsToNat intPart).map (fun n => (n : ℚ))
    | [intPart, fracPart] =>
      match digitsToNat intPart, digitsToNat fracPart with
      | some n, some f => some ((n : ℚ) + (f : ℚ) / ((10 : ℚ) ^ fracPart.length))
      | _, _ => none
    | _ => none
  toQ.map (fun q => if neg then -q else q)

/-- `DeclaredVariable` (nexsys2lib.py lines 22-26): per-variable guess and
domain metadata with defaults `guess = 1.0`, `min_val = -inf`, `max_val =
+inf`.  The infinities are modelled as `none`; finite values as rationals. -/
structure DeclaredVariable where
  guess : ℚ := 1
  min_val : Option ℚ := none
  max_val : Option ℚ := none
  deriving DecidableEq, Repr

/-- Python tuple unpacking `a, b = e` where `e` is a findall element: a
two-tuple unpacks directly; a plain string unpacks into its characters when it
has exactly two, and anything else raises `ValueError`. -/
def unpack2 : PyMatch → Except PyErr (String × String)
  | .str s =>
    match s.toList with
    | [a, b] => .ok (String.mk [a], String.mk [b])
    | _ => .error .valueError
  | .tup [a, b] => .ok (a, b)
  | .tup _ => .error .valueError

/-- Python tuple unpacking `a, b, c = e` for a findall element, as `unpack2`. -/
def unpack3 : PyMatch → Except PyErr (String × String × String)
  | .str s =>
    match s.toList with
    | [a, b, c] => .ok (String.mk [a], String.mk [b], String.mk [c])
    | _ => .error .valueError
  | .tup [a, b, c] => .ok (a, b, c)
  | .tup _ => .error .valueError

/-- Association-list update used to model the Python `dict` mutations on
`declared_dict`. -/
def setGuess (declared : List (String × DeclaredVariable)) (var : String)
    (g : ℚ) : List (String × DeclaredVariable) :=
  if declared.any (fun p => p.1 = var) then
    declared.map (fun p => if p.1 = var then (p.1, { p.2 with guess := g }) else p)
  else
    declared ++ [(var, { guess := g })]

/-- Loop body of `guess_values` (nexsys2preproc.py lines 127-132): for each
findall element, unpack it as `whole, val, var`, update `declared_dict`, and
erase `whole` from the text. -/
def guessValuesLoop (ms : List PyMatch) (system : String)
    (declared : List (String × DeclaredVariable)) :
    Except PyErr (String × List (String × DeclaredVariable)) :=
  match ms with
  | [] => .ok (system, declared)
  | m :: rest => do
    let (whole, val, var) ← unpack3 m
    match pyFloat val with
    | none => .error .valueError
    | some g => guessValuesLoop rest (pyReplace system whole "") (setGuess declared var g)

/-- `guess_values` (nexsys2preproc.py lines 117-134): match
`guess +(@N) +for +(@V)` over the text, record guesses in `declared_dict` and
erase matched directives.  `ctx_dict` is accepted and ignored, as in the
source.  Note the pattern has two capturing groups, so `re.findall` yields
two-tuples, while the loop header unpacks three names. -/
def guess_values (system : String) (ctx : List (String × ℚ))
    (declared : List (String × DeclaredVariable)) :
    Except PyErr (String × List (String × ℚ) × List (String × DeclaredVariable)) := do
  let (system', declared') ← guessValuesLoop (pyFindall guessRx system) system declared
  pure (system', ctx, declared')

/-- `format_eqn_to_expr` (nexsys2preproc.py lines 37-39): split an equation at
`=` and rewrite it as `lhs - (rhs)`.  The Python unpacking `lhs, rhs =
eqn.split("=")` raises `ValueError` unless the split has exactly two parts. -/
def format_eqn_to_expr (eqn : String) : Except PyErr String :=
  match eqn.toList.splitOn '=' with
  | [lhs, rhs] => .ok (String.mk lhs ++ " - (" ++ String.mk rhs ++ ")")
  | _ => .error .valueError

/-- `is_eqn_not_if_statement_construct` (nexsys2preproc.py lines 41-46). -/
def is_eqn_not_if_statement_construct (line : String) : Bool :=
  line.toList.contains '=' &&
    !(line.toList.contains '<' || line.toList.contains '>' ||
      line.toList.contains '[' || line.toList.contains ']')

/-- The operator-code table of `conditionals` (nexsys2preproc.py lines 53-60);
looking up a key outside the table raises `KeyError`. -/
def operatorCode (op : String) : Except PyErr String :=
  if op = "==" then .ok ",1.0,"
  else if op = "<=" then .ok ",2.0,"
  else if op = ">=" then .ok ",3.0,"
  else if op = "<" then .ok ",4.0,"
  else if op = ">" then .ok ",5.0,"
  else if op = "!=" then .ok ",6.0,"
  else .error .keyError

/-- Lines 62-64 of nexsys2preproc.py: replace each embedded equation line of
the matched block by its expression form. -/
def condRewriteLines (whole : String) : Except PyErr String :=
  (splitLines whole).foldlM
    (fun acc line => do
      if is_eqn_not_if_statement_construct line then
        let e ← format_eqn_to_expr line
        pure (pyReplace acc line e)
      else
        pure acc)
    whole

/-- Lines 66-77 of nexsys2preproc.py: strip whitespace and rewrite the matched
block into an `if(...)` call, then substitute it back into the text. -/
def condFormat (system original operator opCode : String) :
    Except PyErr String := do
  let whole ← condRewriteLines original
  let formatted :=
    pyReplace (pyReplace (pyReplace (pyReplace (pyReplace (pyReplace
      (pyReplace (pyReplace whole " " "") "\t" "") "\n" "") "[" "(")
      operator opCode) "]" ",") "else" ",") "end" ") = 0"
  pure (pyReplace system original formatted)

/-- Loop of `conditionals` (nexsys2preproc.py lines 50-77).  The pattern has a
single capturing group, so each findall element is the group's text alone; the
loop header `for original, operator in ...` therefore unpacks that string into
its characters. -/
def conditionalsLoop (ms : List PyMatch) (system : String) :
    Except PyErr String :=
  match ms with
  | [] => .ok system
  | m :: rest => do
    let (original, operator) ← unpack2 m
    let code ← operatorCode operator
    let system' ← condFormat system original operator code
    conditionalsLoop rest system'

/-- `conditionals` (nexsys2preproc.py lines 24-79): rewrite matches of the
if-block pattern into single-line `if(...)` calls.  `ctx_dict` and
`declared_dict` are untouched, as in the source. -/
def conditionals (system : String) : Except PyErr String :=
  conditionalsLoop (pyFindall condRx system) system

/-- A `ctypes.c_int` as returned by the FFI calls in geqslib.py:
`status = c_int(GEQSLIB_DLL...(...))` wraps the raw integer. -/
structure CInt where
  value : Int
  deriving DecidableEq, Repr

/-- Python equality `c_int(x) == n` between a `ctypes.c_int` and a plain
`int`.  `c_int` does not implement `__eq__`, so the comparison falls back to
object identity and is `False` for every freshly constructed wrapper,
whatever the numbers are.  (geqslib.py itself unwraps with `status.value ==
FULLY_CONSTRAINED` in `is_fully_constrained`, the correct idiom.) -/
def cIntEqInt (_ : CInt) (_ : Int) : Bool := false

/-- `WILL_CONSTRAIN` in dll/geqslib_ffi.py. -/
def WILL_CONSTRAIN : Int := 1

/-- `WILL_NOT_CONSTRAIN` in dll/geqslib_ffi.py. -/
def WILL_NOT_CONSTRAIN : Int := 0

/-- `WILL_OVERCONSTRAIN` in dll/geqslib_ffi.py. -/
def WILL_OVERCONSTRAIN : Int := 2

/-- `RUST_ERROR_OCCURRED` in dll/geqslib_ffi.py. -/
def RUST_ERROR_OCCURRED : Int := -1

/-- `SystemBuilder.try_constrain_with` (geqslib.py lines 235-255),
parameterised by the raw status the native `try_constrain_with` call reports
and by the wrapper's `self.eqns` bookkeeping list.  The source compares the
`c_int` wrapper directly against the integer constants:

  if status == WILL_NOT_CONSTRAIN: return 0
  elif status == WILL_OVERCONSTRAIN: return 2
  elif status == RUST_ERROR_OCCURRED: raise Exception
  self.eqns.append(equation); return 1

Returns the Python-level return value together with the updated `self.eqns`. -/
def try_constrain_with (rustStatus : Int) (eqns : List String)
    (equation : String) : Except PyErr (Int × List String) :=
  let status : CInt := ⟨rustStatus⟩
  if cIntEqInt status WILL_NOT_CONSTRAIN then .ok (0, eqns)
  else if cIntEqInt status WILL_OVERCONSTRAIN then .ok (2, eqns)
  else if cIntEqInt status RUST_ERROR_OCCURRED then .error .genericException
  else .ok (1, eqns ++ [equation])

/-- Whether each parameter of `create_context_with` (geqslib.py line 131) has
a default value.  The source reads

  def create_context_with(ctx_dict: any, include_default_values: True):

`: True` is an *annotation* on the second parameter, not a default value, so
both parameters are required. -/
def create_context_with_defaults : List Bool := [false, false]

/-- Number of required positional parameters in a Python parameter list. -/
def requiredParamCount (defaults : List Bool) : Nat :=
  (defaults.filter (fun b => !b)).length

/-- Whether a Python call with `nargs` positional arguments binds a parameter
list; otherwise the call raises `TypeError` before the body runs. -/
def pyCallOk (defaults : List Bool) (nargs : Nat) : Bool :=
  requiredParamCount defaults ≤ nargs && nargs ≤ defaults.length

/-- The symbol table seeded by the default `Context`.  Modelled from the spec:
"A default Context seeds common math (sin, cos, tan, sinh, cosh, tanh, asin,
acos, atan, log, ln, exp, sqrt, abs), `if`, and constants `pi`, `e`"
(geqslib's `new_default_context_hash_map` is native code not under src/). -/
def defaultCtxSymbols : List String :=
  ["sin", "cos", "tan", "sinh", "cosh", "tanh", "asin", "acos", "atan",
   "log", "ln", "exp", "sqrt", "abs", "if", "pi", "e"]

/-- Modelled from the spec: an equation's `mentions` — the set of variable
names appearing in it that the context (default symbols plus the accumulated
assignment) does not resolve (spec section 4.3; the native equation parser is
not under src/).  Order of first occurrence, duplicates removed. -/
def mentionsOf (ctxNames : List String) (eqn : String) : List String :=
  ((findVarsL eqn).filter
    (fun v => !(defaultCtxSymbols ++ ctxNames).contains v)).dedup

/-- The native `SystemBuilder` state.  Modelled from the spec: the accepted
equations and the union of their `mentions` (spec section 4.5; the native
builder lives behind `new_system_builder`, which is not under src/). -/
structure BuilderState where
  eqns : List String
  unknowns : List String
  deriving DecidableEq, Repr

/-- Union preserving first-occurrence order, used for `unknowns ∪ M`. -/
def unionKeepOrder (a b : List String) : List String :=
  a ++ b.filter (fun x => !a.contains x)

/-- Status reported by the native constraining check. -/
inductive ConstrainStatus where
  | willNotConstrain
  | willConstrain
  | willOverconstrain
  deriving DecidableEq, Repr

/-- Modelled from the spec: the native `try_constrain_with` check and state
update (spec section 4.5).  With `M` the candidate's mentions: if
`|equations| + 1 > |unknowns ∪ M|` the check reports WillOverconstrain and the
equation is rejected; if `M` is disjoint from the current unknowns it reports
WillNotConstrain and the equation is rejected; otherwise it reports
WillConstrain and the equation is accepted into the builder. -/
def rustTryConstrain (b : BuilderState) (m : List String) (eqn : String) :
    ConstrainStatus × BuilderState :=
  let u := unionKeepOrder b.unknowns m
  if b.eqns.length + 1 > u.length then (.willOverconstrain, b)
  else if m.all (fun x => !b.unknowns.contains x) then (.willNotConstrain, b)
  else (.willConstrain, ⟨b.eqns ++ [eqn], u⟩)

/-- Modelled from the spec: `is_fully_constrained` for the native builder —
equation count equals unknown count (spec section 4.5). -/
def rustIsFullyConstrained (b : BuilderState) : Bool :=
  b.eqns.length = b.unknowns.length && 1 ≤ b.eqns.length

/-- Line 131 of nexsys2lib.py: `[var for var in nexsys_findall("@V", eqn) if
var not in ctx_dict]` — the variables of an equation not yet in the global
assignment, with duplicates kept (it is a list comprehension, not a set). -/
def unknownsIn (ctxNames : List String) (eqn : String) : List String :=
  (findVarsL eqn).filter (fun v => !ctxNames.contains v)

/-- `_try_solve_single_unknown_equation` (nexsys2lib.py lines 123-153),
parameterised by the outcome of the native `solve_equation` call (`solveEq eqn
= some vars` means the native solver succeeded with a solution binding
`vars`; it is never consulted in the current code, see below).  For each
equation, the loop computes its unknowns; if their count differs from one it
returns `False` at once (line 132-133 sit inside the `for` body).  Otherwise
it evaluates `create_context_with(ctx_dict)` — a single argument for two
required parameters — which raises `TypeError` before `solve_equation` runs.
`acc` holds the already-visited equations, reversed. -/
def trySolveSingleAux (solveEq : String → Option (List String))
    (acc : List String) (pool ctxNames : List String) :
    Except PyErr (Bool × List String × List String) :=
  match pool with
  | [] => .ok (false, acc.reverse, ctxNames)
  | eqn :: rest =>
    if (unknownsIn ctxNames eqn).length ≠ 1 then
      .ok (false, acc.reverse ++ (eqn :: rest), ctxNames)
    else if pyCallOk create_context_with_defaults 1 then
      match solveEq eqn with
      | some vars =>
        .ok (true, acc.reverse ++ rest, unionKeepOrder ctxNames vars)
      | none => trySolveSingleAux solveEq (eqn :: acc) rest ctxNames
    else .error .typeError

/-- `_try_solve_single_unknown_equation` on a fresh pool: returns whether an
equation was solved, the updated pool and the updated assignment names. -/
def trySolveSingle (solveEq : String → Option (List String))
    (pool ctxNames : List String) :
    Except PyErr (Bool × List String × List String) :=
  trySolveSingleAux solveEq [] pool ctxNames

/-- The inner growth loop of `_try_solve_subsystem_of_equations`
(nexsys2lib.py lines 164-179).  Each pass scans `sub_pool`; the wrapper
`try_constrain_with` always returns `1` (its `c_int` comparisons are all
`False`), which equals `WILL_CONSTRAIN`, so the Python loop pops
`sub_pool[0]`, sets `still_learning`, and restarts — consuming the sub-pool
front to back regardless of the native status.  The native builder state
advances only for equations the native check actually accepts. -/
def growLoop (ctxNames : List String) (b : BuilderState) :
    List String → BuilderState × List String
  | [] => (b, [])
  | e :: rest =>
    let step := try_constrain_with
      (match (rustTryConstrain b (mentionsOf ctxNames e) e).1 with
        | .willNotConstrain => WILL_NOT_CONSTRAIN
        | .willConstrain => WILL_CONSTRAIN
        | .willOverconstrain => WILL_OVERCONSTRAIN)
      b.eqns e
    match step with
    | .error _ => (b, e :: rest)
    | .ok (ret, _) =>
      if ret = 1 then
        growLoop ctxNames (rustTryConstrain b (mentionsOf ctxNames e) e).2 rest
      else (b, e :: rest)

/-- Lines 181-202 of `_try_solve_subsystem_of_equations`: once the growth loop
stops, if the builder is fully constrained the system is built and solved —
and the function returns `True` whether or not `solve_system` produced a
solution (the `return True` at line 198 is outside the success check); the
equation pool is replaced by `sub_pool` only on success.  If the builder is
not fully constrained the function returns `False` without touching the pool. -/
def subsystemAttemptEpilogue (fully : Bool) (maybeSoln : Option (List String))
    (pool subPool ctxNames : List String) :
    Option Bool × List String × List String :=
  if fully then
    match maybeSoln with
    | some vars => (some true, subPool, unionKeepOrder ctxNames vars)
    | none => (some true, pool, ctxNames)
  else (some false, pool, ctxNames)

/-- `_try_solve_subsystem_of_equations` (nexsys2lib.py lines 155-202),
parameterised by the outcome of the native `solve_system` call on the
builder's accepted equations.  The `for` loop over the pool evaluates
`create_context_with(ctx_dict)` for its first seed — a single argument for two
required parameters — raising `TypeError`; the remainder of the body (growth,
epilogue) is embedded for completeness.  On an empty pool the `for` body never
runs and the function falls off the end, returning Python `None`. -/
def trySolveSubsystem (solveSys : List String → Option (List String))
    (pool ctxNames : List String) :
    Except PyErr (Option Bool × List String × List String) :=
  match pool with
  | [] => .ok (none, [], ctxNames)
  | eqn :: _ =>
    if pyCallOk create_context_with_defaults 1 then
      let b0 : BuilderState := ⟨[eqn], mentionsOf ctxNames eqn⟩
      let subPool := pool.filter (fun x => x ≠ eqn)
      let (b, subPool') := growLoop ctxNames b0 subPool
      let fully := rustIsFullyConstrained b
      .ok (subsystemAttemptEpilogue fully
        (if fully then solveSys b.eqns else none) pool subPool' ctxNames)
    else .error .typeError

/-- A preprocessor function registered with the scheduler (the five standard
ones from nexsys2preproc.py, named by tag). -/
inductive PPTag where
  | commentsTag
  | constValuesTag
  | domainsTag
  | guessValuesTag
  | conditionalsTag
  deriving DecidableEq, Repr

/-- The scheduling kind passed to `NexsysPreProcessorScheduler.schedule`:
`PreProcOnce` or `PreProcUntilStable` (nexsys2lib.py lines 43-78). -/
inductive PPKind where
  | once
  | untilStable
  deriving DecidableEq, Repr

/-- One entry of the scheduler's `ordering` list: `kind(processor_fn)`. -/
structure PreProcEntry where
  kind : PPKind
  fn : PPTag
  deriving DecidableEq, Repr

/-- A call `NexsysPreProcessorScheduler()` (nexsys2lib.py lines 88-103).
Python's instantiation protocol runs `__new__` — which returns the singleton
instance, creating it on first use — and then runs `__init__` on whatever
`__new__` returned.  `__init__` sets `self.ordering = []`, so every
constructor call resets the singleton's ordering to the empty list, whatever
it held before.  The function maps the ordering held before the call to the
ordering held after it. -/
def schedulerConstructorCall (_prevOrdering : List PreProcEntry) :
    List PreProcEntry := []

/-- `NexsysPreProcessorScheduler.schedule` (nexsys2lib.py lines 105-109):
append `kind(processor_fn)` to the ordering. -/
def schedulerSchedule (ordering : List PreProcEntry) (e : PreProcEntry) :
    List PreProcEntry := ordering ++ [e]

/-- The module body of preprocessors.py: one constructor call, then five
`schedule` calls registering comments, const_values, domains, guess_values
(each `PreProcOnce`) and conditionals (`PreProcUntilStable`), in that order. -/
def standardBuiltOrdering : List PreProcEntry :=
  schedulerSchedule (schedulerSchedule (schedulerSchedule (schedulerSchedule
    (schedulerSchedule (schedulerConstructorCall [])
      ⟨.once, .commentsTag⟩)
      ⟨.once, .constValuesTag⟩)
      ⟨.once, .domainsTag⟩)
      ⟨.once, .guessValuesTag⟩)
      ⟨.untilStable, .conditionalsTag⟩

/-- One iteration of the preprocessor loop in `nexsys2` (nexsys2lib.py line
214): `system = pp(system, ctx_dict, declared_dict)`.  `pp` is an
`INexsys2PreProc` *instance*, and the class defines no `__call__`, so calling
it raises `TypeError`.  (The loop runs zero times in practice because the
ordering is empty; see `schedulerConstructorCall`.) -/
def applyEntry (_e : PreProcEntry) (_system : String) : Except PyErr String :=
  .error .typeError

/-- The preprocessor loop of `nexsys2` (nexsys2lib.py lines 212-214). -/
def applyEntries (entries : List PreProcEntry) (system : String) :
    Except PyErr String :=
  match entries with
  | [] => .ok system
  | e :: rest => do
    let system' ← applyEntry e system
    applyEntries rest system'

/-- Lines 209-214 of `nexsys2`: obtain the scheduler singleton — resetting its
ordering — and run each scheduled preprocessor over the text.  `built` is the
ordering the singleton held before `nexsys2` was called. -/
def nexsys2Preprocess (built : List PreProcEntry) (text : String) :
    Except PyErr String :=
  applyEntries (schedulerConstructorCall built) text

/-- Line 217 of `nexsys2`: split the preprocessed text into lines and keep
those containing `=` as the equation pool. -/
def poolOf (text : String) : List String :=
  (splitLines text).filter (fun l => l.toList.contains '=')

/-- The `while True` loop of `nexsys2` (lines 220-229): try the single-unknown
step; on success `continue`; otherwise try the subsystem step; `continue` only
when it returned `True` (`_SUCCESS == x` is `True` only for `x` is `True`;
`None` and `False` fall to `break`).  `fuel` bounds the unbounded `while`;
`none` means fuel ran out with the loop still running. -/
def nexsys2Loop (solveEq : String → Option (List String))
    (solveSys : List String → Option (List String)) :
    Nat → List String → List String →
    Except PyErr (Option (List String × List String))
  | 0, _, _ => .ok none
  | fuel + 1, pool, ctxNames => do
    let (s, pool1, ctx1) ← trySolveSingle solveEq pool ctxNames
    if s then nexsys2Loop solveEq solveSys fuel pool1 ctx1
    else do
      let (r, pool2, ctx2) ← trySolveSubsystem solveSys pool1 ctx1
      if r = some true then nexsys2Loop solveEq solveSys fuel pool2 ctx2
      else .ok (some (pool2, ctx2))

/-- Lines 231-234 of `nexsys2`: after the loop, a non-empty equation pool
raises a bare `Exception` (no arguments, no payload); otherwise the assignment
is returned. -/
def nexsys2Finish (pool ctxNames : List String) :
    Except PyErr (List String) :=
  if pool.length ≠ 0 then .error .genericException else .ok ctxNames

/-- `nexsys2` (nexsys2lib.py lines 204-234), parameterised by the native
solver outcomes and by the ordering the scheduler singleton held when `solve`
was called.  Returns the solved variable names, `none` standing for a run
whose loop fuel expired (which no input reaches). -/
def nexsys2Embed (solveEq : String → Option (List String))
    (solveSys : List String → Option (List String))
    (built : List PreProcEntry) (text : String) :
    Except PyErr (Option (List String)) := do
  let system ← nexsys2Preprocess built text
  let equations := poolOf system
  match ← nexsys2Loop solveEq solveSys (equations.length + 1) equations [] with
  | none => pure none
  | some (pool, ctxNames) => do
    let soln ← nexsys2Finish pool ctxNames
    pure (some soln)

/-- One pass of the greedy grower as the claims describe it.  Modelled from
the spec (section 4.5 with section 4.7): scan the remaining pool in order; on
WillConstrain accept the equation, remove it and restart the pass; on
WillOverconstrain stop growing; on WillNotConstrain skip the equation.
Returns the new builder and sub-pool when an equation was accepted, `none`
when the pass found nothing (fixed point reached). -/
def specGrowPass (ctxNames : List String) (b : BuilderState)
    (acc : List String) : List String → Option (BuilderState × List String)
  | [] => none
  | e :: rest =>
    match rustTryConstrain b (mentionsOf ctxNames e) e with
    | (.willConstrain, b') => some (b', acc.reverse ++ rest)
    | (.willOverconstrain, _) => none
    | (.willNotConstrain, _) => specGrowPass ctxNames b (e :: acc) rest

/-- Modelled from the spec: the greedy grower iterated to fixed point over the
remaining pool (spec sections 4.5 and 4.7); `fuel` at least the pool length
suffices since each accepted equation shrinks the pool. -/
def specGrow (ctxNames : List String) :
    Nat → BuilderState → List String → BuilderState × List String
  | 0, b, subPool => (b, subPool)
  | fuel + 1, b, subPool =>
    match specGrowPass ctxNames b [] subPool with
    | none => (b, subPool)
    | some (b', subPool') => specGrow ctxNames fuel b' subPool'

/-- Growth from a seed of the pool, as the claims describe the subsystem step:
builder seeded with the equation, grown to fixed point over the rest of the
pool (`sub_pool = [x for x in eqn_pool if x != eqn]`). -/
def specGrowFromSeed (ctxNames : List String) (pool : List String)
    (seed : String) : BuilderState :=
  let subPool := pool.filter (fun x => x ≠ seed)
  (specGrow ctxNames subPool.length ⟨[seed], mentionsOf ctxNames seed⟩
    subPool).1

/-- The loop shape of `nexsys2` (lines 220-229) over an arbitrary body:
iterate `step` while it reports progress, break and return the state
otherwise; `none` when `fuel` iterations all reported progress. -/
def nexsys2LoopOn
    (step : List String → List String → Bool × List String × List String) :
    Nat → List String → List String → Option (List String × List String)
  | 0, _, _ => none
  | fuel + 1, pool, ctxNames =>
    let (p, pool', ctx') := step pool ctxNames
    if p then nexsys2LoopOn step fuel pool' ctx' else some (pool', ctx')

/-- The loop body in the situation claim C3 describes: the subsystem attempt
reached a fully constrained builder and the native multivariate solve failed
(`maybe_soln = None`), so the iteration's outcome is exactly the epilogue of
the attempt (lines 181-202). -/
def failedSubsystemStep (subPool : List String)
    (pool ctxNames : List String) : Bool × List String × List String :=
  let (r, pool', ctx') :=
    subsystemAttemptEpilogue true none pool subPool ctxNames
  (r = some true, pool', ctx')

/-- What the native matrix read produces for the Python `Matrix.__getitem__`
model: an in-range element read, a read the DLL is handed with an index
outside the matrix (no bounds check happened on the Python side), or Python's
implicit `None` when the method body falls through without returning. -/
inductive GetOutcome where
  | dllRead (i j : Nat)
  | pyNone
  deriving DecidableEq, Repr

/-- `Matrix.__getitem__` (gmatlib.py lines 86-98) on a pair of `int` indices
for a matrix of shape `rows × cols`.  The guard in the source is

  if i < self.rows or j < self.cols:
      return Matrix.DLL.index_double_matrix(self.ptr, c_uint(i), c_uint(j))

— an `or` where a bounds check needs `and` — and the branch has no `else`:
when the guard is false the method falls off the end and returns `None`. -/
def matrixGetItem (rows cols i j : Nat) : Except PyErr GetOutcome :=
  if i < rows || j < cols then .ok (.dllRead i j)
  else .ok .pyNone

/-- `Matrix.__setitem__` (gmatlib.py lines 121-130): raise
`MatrixIndexOutOfBoundsError` when `i >= rows or j >= cols`, otherwise write
through the DLL. -/
def matrixSetItem (rows cols i j : Nat) : Except PyErr Unit :=
  if rows ≤ i || cols ≤ j then .error .matrixIndexOutOfBounds
  else .ok ()

/-- `create_context_with` cannot be called with one argument: both of its
parameters are required. -/
theorem pyCallOk_create_context_one :
    pyCallOk create_context_with_defaults 1 = false := rfl

/-- A call to `create_context_with` with two arguments binds. -/
theorem pyCallOk_create_context_two :
    pyCallOk create_context_with_defaults 2 = true := rfl

/-- On a non-empty pool, the single-unknown step either returns no-progress
with the pool untouched (first equation not single-unknown) or raises
`TypeError` at `create_context_with(ctx_dict)` (first equation
single-unknown). -/
theorem trySolveSingle_cons (solveEq : String → Option (List String))
    (e : String) (rest ctxNames : List String) :
    trySolveSingle solveEq (e :: rest) ctxNames =
      (if (unknownsIn ctxNames e).length ≠ 1 then
        .ok (false, e :: rest, ctxNames)
      else .error .typeError) := by
  by_cases h : (unknownsIn ctxNames e).length = 1
  · simp [trySolveSingle, trySolveSingleAux, h, pyCallOk_create_context_one]
  · simp [trySolveSingle, trySolveSingleAux, h]

/-- On a non-empty pool, the subsystem step raises `TypeError` at
`create_context_with(ctx_dict)` for its first seed. -/
theorem trySolveSubsystem_cons (solveSys : List String → Option (List String))
    (e : String) (rest ctxNames : List String) :
    trySolveSubsystem solveSys (e :: rest) ctxNames = .error .typeError := by
  simp [trySolveSubsystem, pyCallOk_create_context_one]

/-- On a non-empty pool, one iteration of the solver loop raises `TypeError`. -/
theorem nexsys2Loop_cons (solveEq : String → Option (List String))
    (solveSys : List String → Option (List String)) (fuel : Nat)
    (e : String) (rest ctxNames : List String) :
    nexsys2Loop solveEq solveSys (fuel + 1) (e :: rest) ctxNames =
      .error .typeError := by
  rw [nexsys2Loop, trySolveSingle_cons]
  by_cases h : (unknownsIn ctxNames e).length = 1
  · simp [h, bind, Except.bind]
  · simp [h, bind, Except.bind, trySolveSubsystem_cons]

/-- C1.  The claim says the single-unknown step scans the entire pool and
reports no progress only when no equation in the whole pool is single-unknown.
The code instead `return False`s from inside the `for` body as soon as the
*first* equation fails the single-unknown test: on the pool
`["x + y = 2", "z = 3"]` with an empty assignment it reports no progress and
leaves the pool untouched, although `"z = 3"` has exactly one unknown. -/
theorem C1_single_step_returns_before_scanning_pool :
    ∀ solveEq : String → Option (List String),
      trySolveSingle solveEq ["x + y = 2", "z = 3"] [] =
        .ok (false, ["x + y = 2", "z = 3"], []) ∧
      (unknownsIn [] "z = 3").length = 1 := by
  intro solveEq
  exact ⟨rfl, rfl⟩

/-- C2.  The claim says the schedule in effect when `solve` runs is the
ordered list that was built.  But `NexsysPreProcessorScheduler()` inside
`nexsys2` re-runs `__init__` on the singleton, resetting `ordering` to `[]`:
whatever ordering was built (in particular the standard five-entry schedule),
the preprocessing loop iterates an empty list and returns the input text
unchanged. -/
theorem C2_schedule_is_reset_to_empty_at_solve_time :
    ∀ (built : List PreProcEntry) (text : String),
      schedulerConstructorCall built = [] ∧
      nexsys2Preprocess built text = .ok text ∧
      standardBuiltOrdering.length = 5 := by
  intro built text
  exact ⟨rfl, rfl, rfl⟩

/-- C3.  The claim says a numerically failed fully-constrained attempt is
treated as no progress and the outer loop still terminates.  In the code the
attempt's epilogue (lines 181-202) returns `True` with the pool and assignment
unchanged when `solve_system` yields no solution, so the `nexsys2` loop body
reports progress with an identical state and the loop never reaches `break`,
for any amount of fuel. -/
theorem C3_failed_attempt_reports_progress_and_loop_never_breaks :
    ∀ (subPool pool ctxNames : List String) (fuel : Nat),
      subsystemAttemptEpilogue true none pool subPool ctxNames =
        (some true, pool, ctxNames) ∧
      nexsys2LoopOn (failedSubsystemStep subPool) fuel pool ctxNames = none := by
  intro subPool pool ctxNames fuel
  refine ⟨rfl, ?_⟩
  induction fuel generalizing pool ctxNames with
  | zero => rfl
  | succ n ih =>
    simpa [nexsys2LoopOn, failedSubsystemStep, subsystemAttemptEpilogue]
      using ih pool ctxNames

/-- C4.  The claim says every remaining equation is tried as a seed, in pool
order, and the first seed whose greedy growth reaches a fully constrained
builder wins.  On the pool `["p + q = 1", "x + y = 2", "x - y = 0"]` the code
never gets past the first seed — its `for` body raises `TypeError` at
`create_context_with(ctx_dict)` (and structurally returns in both branches of
its first iteration) — although growth from the second seed `"x + y = 2"` does
reach a fully constrained builder while growth from the first does not. -/
theorem C4_subsystem_step_dies_on_first_seed :
    ∀ solveSys : List String → Option (List String),
      trySolveSubsystem solveSys ["p + q = 1", "x + y = 2", "x - y = 0"] [] =
        .error .typeError ∧
      rustIsFullyConstrained
        (specGrowFromSeed [] ["p + q = 1", "x + y = 2", "x - y = 0"]
          "x + y = 2") = true ∧
      rustIsFullyConstrained
        (specGrowFromSeed [] ["p + q = 1", "x + y = 2", "x - y = 0"]
          "p + q = 1") = false := by
  intro solveSys
  exact ⟨rfl, rfl, rfl⟩

/-- C5.  The claim says `try_constrain_with` distinguishes the three statuses
of the underlying check and only accepts on WillConstrain.  Because
`c_int(status) == <int constant>` is always `False`, the wrapper falls through
to `self.eqns.append(equation); return 1` for *every* status: it reports
WillConstrain and accepts the equation even when the underlying check reports
WILL_NOT_CONSTRAIN — as it does for the candidate `"p + q = 1"` against a
builder seeded with `"x + y = 2"`, whose mentions are disjoint. -/
theorem C5_try_constrain_with_ignores_underlying_status :
    ∀ (rustStatus : Int) (eqns : List String) (equation : String),
      try_constrain_with rustStatus eqns equation = .ok (1, eqns ++ [equation]) ∧
      (rustTryConstrain ⟨["x + y = 2"], mentionsOf [] "x + y = 2"⟩
        (mentionsOf [] "p + q = 1") "p + q = 1").1 = .willNotConstrain := by
  intro rustStatus eqns equation
  exact ⟨rfl, rfl⟩

/-- C6.  `create_context_with` has two required parameters (the `: True` on
the second is an annotation, not a default) and the pipeline calls it with the
single argument `ctx_dict`; hence on any input text whose equation pool
contains a line with exactly one unresolved variable, `nexsys2` raises
`TypeError` before any Newton step — whatever the native solvers would have
answered and whatever schedule was built. -/
theorem C6_solve_raises_type_error_before_any_newton_step :
    ∀ (solveEq : String → Option (List String))
      (solveSys : List String → Option (List String))
      (built : List PreProcEntry) (text : String),
      (poolOf text).any (fun l => (unknownsIn [] l).length == 1) = true →
      nexsys2Embed solveEq solveSys built text = .error .typeError ∧
      pyCallOk create_context_with_defaults 1 = false ∧
      pyCallOk create_context_with_defaults 2 = true := by
  intro solveEq solveSys built text h
  refine ⟨?_, rfl, rfl⟩
  have hne : poolOf text ≠ [] := by
    intro hnil
    rw [hnil] at h
    simp [List.any] at h
  obtain ⟨e, rest, hp⟩ := List.exists_cons_of_ne_nil hne
  show (nexsys2Preprocess built text >>= fun system => _) = _
  rw [show nexsys2Preprocess built text = .ok text from rfl]
  show (nexsys2Loop solveEq solveSys ((poolOf text).length + 1)
      (poolOf text) [] >>= _) = _
  rw [hp, nexsys2Loop_cons]
  rfl

/-- Witness for C6 at the concrete input `"x = 2"`: the hypothesis holds and
the solve raises `TypeError`. -/
theorem C6_solve_raises_type_error_before_any_newton_step_witness :
    ((poolOf "x = 2").any (fun l => (unknownsIn [] l).length == 1) = true) ∧
    nexsys2Embed (fun _ => none) (fun _ => none) standardBuiltOrdering
      "x = 2" = .error .typeError :=
  ⟨rfl, (C6_solve_raises_type_error_before_any_newton_step
    (fun _ => none) (fun _ => none) standardBuiltOrdering "x = 2" rfl).1⟩

/-- C7.  The claim says the number pattern accepts single-digit integers so
that `guess 1 for x` is matched and recorded.  The pattern
`-? ?[0-9]+\.?[0-9]+?` requires a digit for its trailing `[0-9]+?` even though
it is lazy, so `1` does not match it while `12` does; `guess 1 for x` produces
no match at all and `guess_values` returns text and metadata unchanged.  (Even
a directive that does match, such as `guess 12 for x`, raises `ValueError`:
the two-group pattern makes `re.findall` yield pairs, which the loop header
unpacks into three names.) -/
theorem C7_single_digit_guess_directive_is_not_matched :
    rxFindall legalNumRx "1" = [] ∧
    rxFindall legalNumRx "12" = [("12", [])] ∧
    pyFindall guessRx "guess 1 for x" = [] ∧
    guess_values "guess 1 for x" [] [] = .ok ("guess 1 for x", [], []) ∧
    guess_values "guess 12 for x" [] [] = .error .valueError := by
  exact ⟨rfl, rfl, rfl, rfl, rfl⟩

/-- C8.  The claim says every multi-line if-block with one of the six
operators is matched and rewritten, `!=` receiving code 6.  The pattern is
compiled with only `IGNORECASE` — `.` does not match a newline — so a
multi-line block can never match: on the block
`if [a!=0]` / `b=1` / `else` / `b=2` / `end` the findall is empty and
`conditionals` returns the text unchanged (no rewrite with any code, although
the operator table itself does map `!=` to code 6). -/
theorem C8_multiline_conditional_block_is_not_matched :
    pyFindall condRx "if [a!=0]\nb=1\nelse\nb=2\nend" = [] ∧
    conditionals "if [a!=0]\nb=1\nelse\nb=2\nend" =
      .ok "if [a!=0]\nb=1\nelse\nb=2\nend" ∧
    operatorCode "!=" = .ok ",6.0," := by
  exact ⟨rfl, rfl, rfl⟩

/-- C9 counterexample.  The claim says the failure carries the list of stuck
equations and their unknowns as a tagged error with kind and message; but two
different stuck pools produce the *same* bare `Exception` value, so the error
carries no such payload. -/
theorem C9_same_bare_exception_for_different_stuck_pools :
    nexsys2Finish ["x + y = 2"] [] =
      nexsys2Finish ["p + q = 1", "r = s + t"] [] ∧
    nexsys2Finish ["x + y = 2"] [] = .error .genericException := by
  exact ⟨rfl, rfl⟩

/-- C9 as amended: when the solver loop exits with a non-empty equation pool,
`nexsys2` raises a bare `Exception` carrying no stuck-equation list, no
unknowns, no kind and no message — the same error value for every stuck
pool. -/
theorem C9_stuck_pool_raises_bare_exception :
    ∀ pool ctxNames : List String, pool ≠ [] →
      nexsys2Finish pool ctxNames = .error .genericException := by
  intro pool ctxNames h
  simp [nexsys2Finish, h]

/-- Witness for the amended C9 at the concrete stuck pool `["x = 2"]`. -/
theorem C9_stuck_pool_raises_bare_exception_witness :
    nexsys2Finish ["x = 2"] [] = .error .genericException :=
  C9_stuck_pool_raises_bare_exception ["x = 2"] [] (by simp)

/-- C10.  The claim says `get` and `set` both fail with IndexOutOfRange
exactly when `i ≥ R` or `j ≥ C`.  `set` does; `get` guards the DLL read with
`i < rows or j < cols` — an `or` where a bounds check needs `and` — and has no
failure branch at all: on a 2×2 matrix, `get(2,0)` passes the guard and hands
the DLL an out-of-range row, `get(2,2)` fails the guard and silently returns
Python `None`, and no index pair whatsoever makes `get` raise. -/
theorem C10_get_never_raises_while_set_checks_bounds :
    (∀ i j : Nat, matrixSetItem 2 2 i j =
      if 2 ≤ i ∨ 2 ≤ j then .error .matrixIndexOutOfBounds else .ok ()) ∧
    matrixGetItem 2 2 2 0 = .ok (.dllRead 2 0) ∧
    matrixGetItem 2 2 2 2 = .ok .pyNone ∧
    (∀ i j : Nat, ∀ e : PyErr, matrixGetItem 2 2 i j ≠ .error e) := by
  refine ⟨?_, rfl, rfl, ?_⟩
  · intro i j
    by_cases h : 2 ≤ i ∨ 2 ≤ j
    · rcases h with h | h <;> simp [matrixSetItem, h, if_pos, or_comm]
    · push_neg at h
      simp [matrixSetItem, Nat.not_le.mpr h.1, Nat.not_le.mpr h.2]
  · intro i j e
    unfold matrixGetItem
    by_cases h : i < 2 || j < 2 <;> simp [h]
